import Mathlib

/-!
Verification of the smart-home server core (src/core of the repository):
topic router (`core/mqtt/parser.py`, `Entity.state_topic` /
`Entity.command_topic` in `core/models.py`), the automation execution
engine (`core/automation_executor.py`), the MQTT command encoder
(`publish_command` in `core/mqtt/client.py`), device control
(`core/services/device_control.py`, `control_entity` in `core/tasks.py`),
state ingestion (`core/mqtt/handlers.py`) and the scene runner
(`RunSceneView.post` in `core/api/scenes.py`).

The Python code is shallowly embedded: JSON-ish Python values become the
inductive `PyVal` (numbers as exact rationals: the source compares via
`float(...)`, modelled by the partial numeric coercion `pyFloat`),
Python dicts become insertion-ordered association lists, exceptions
become `Except`, and Django's expiring cache becomes an explicit map
from keys to (value, expiry-instant) threaded through the execution
pipeline together with the current time in seconds.
-/

namespace SmartHome

/-- JSON-like Python values crossing the MQTT / automation boundary.
Numbers are modelled as exact rationals (Python `int` and `float`
collapse into one constructor; `float` specials `inf`/`nan` have no
rational counterpart and are not needed by any claim). -/
inductive PyVal where
  | vStr (s : String)
  | vNum (q : ℚ)
  | vBool (b : Bool)
  | vNull
  | vList (xs : List PyVal)
  | vDict (m : List (String × PyVal))

/-! ## Python primitive helpers -/

/-- Digits of a decimal literal folded to a natural number. -/
def natOfDigits (l : List Char) : ℕ :=
  l.foldl (fun a c => a * 10 + (c.toNat - 48)) 0

/-- Longest digit prefix and the rest. -/
def spanDigits (l : List Char) : List Char × List Char :=
  (l.takeWhile Char.isDigit, l.dropWhile Char.isDigit)

/-- Exponent part of a Python float literal: `e`/`E`, optional sign,
at least one digit, consuming the whole rest. -/
def parseExponent (l : List Char) : Option ℤ :=
  match l with
  | [] => some 0
  | e :: rest =>
    if e = 'e' ∨ e = 'E' then
      let (sgn, rest) :=
        match rest with
        | '+' :: r => ((1 : ℤ), r)
        | '-' :: r => ((-1 : ℤ), r)
        | r => (1, r)
      let (ds, rest) := spanDigits rest
      if ds ≠ [] ∧ rest = [] then some (sgn * natOfDigits ds) else none
    else none

/-- Core of Python `float(str)` after sign stripping: decimal digits with
an optional fractional part or a bare fractional part, then an optional
exponent.  (Underscore digit separators and `inf`/`nan` are not
modelled; no claim involves them and the latter have no exact value.) -/
def parseDecimal (l : List Char) : Option ℚ :=
  let (ip, rest) := spanDigits l
  match rest with
  | '.' :: rest2 =>
    let (fp, rest3) := spanDigits rest2
    if ip = [] ∧ fp = [] then none
    else
      (parseExponent rest3).map fun ex =>
        ((natOfDigits ip : ℚ) + (natOfDigits fp : ℚ) / (10 : ℚ) ^ fp.length)
          * (10 : ℚ) ^ ex
  | _ =>
    if ip = [] then none
    else (parseExponent rest).map fun ex => (natOfDigits ip : ℚ) * (10 : ℚ) ^ ex

/-- Strip leading and trailing whitespace from a character list
(`str.strip()` before Python float parsing). -/
def stripWs (l : List Char) : List Char :=
  (((l.dropWhile Char.isWhitespace).reverse).dropWhile Char.isWhitespace).reverse

/-- Python `float(s)` on a string: strips surrounding whitespace, allows
one leading sign, then a decimal literal.  `none` models `ValueError`. -/
def parseFloat? (s : String) : Option ℚ :=
  match stripWs s.data with
  | '+' :: rest => parseDecimal rest
  | '-' :: rest => (parseDecimal rest).map Neg.neg
  | l => parseDecimal l

/-- Decimal rendering of a modelled number: integers render exactly as
Python's `str(int)`.  (Python renders non-integer floats in shortest
round-trip decimal form; no claim applies `str` to a non-integer
number, so non-integral rationals render as `num/den`.) -/
def numStr (q : ℚ) : String :=
  if q.den = 1 then toString q.num else toString q.num ++ "/" ++ toString q.den

mutual

/-- Python `str(x)` for the values the engine compares.  (The engine
only ever applies `str` to scalar state/threshold values in the claims
below; containers render in JSON style rather than Python repr style,
which no theorem exercises.) -/
def pyStr : PyVal → String
  | .vStr s => s
  | .vNum q => numStr q
  | .vBool b => if b then "True" else "False"
  | .vNull => "None"
  | .vList xs => "[" ++ String.intercalate ", " (pyStrList xs) ++ "]"
  | .vDict m => "\x7b" ++ String.intercalate ", " (pyStrDict m) ++ "\x7d"

/-- Renderings of the elements of a list value. -/
def pyStrList : List PyVal → List String
  | [] => []
  | x :: xs => pyStr x :: pyStrList xs

/-- Renderings of the bindings of a dict value. -/
def pyStrDict : List (String × PyVal) → List String
  | [] => []
  | (k, v) :: m => (k ++ ": " ++ pyStr v) :: pyStrDict m

end

/-- Python `float(x)`: numbers pass through, booleans coerce to 0/1,
strings are parsed as float literals; anything else raises
(`TypeError`), modelled as `none` (the engine catches both
`ValueError` and `TypeError`). -/
def pyFloat : PyVal → Option ℚ
  | .vNum q => some q
  | .vBool b => some (if b then 1 else 0)
  | .vStr s => parseFloat? s
  | _ => none

/-! ## Topic router (`core/mqtt/parser.py`, topic helpers in
`core/models.py`) -/

/-- Python `str.split(sep)` for a one-character separator, on the
character list of the string.  `"".split("/") = [""]` and separators at
the ends produce empty segments, as in Python. -/
def splitChar (c : Char) : List Char → List (List Char)
  | [] => [[]]
  | x :: xs =>
    match splitChar c xs with
    | [] => [[x]]
    | h :: t => if x = c then [] :: h :: t else (x :: h) :: t

/-- Rejoin segments with the separator (inverse of `splitChar`). -/
def joinChar (c : Char) : List (List Char) → List Char
  | [] => []
  | [x] => x
  | x :: xs => x ++ c :: joinChar c xs

/-- The split of a topic string into `/`-separated segments
(`topic.split("/")` in the source). -/
def topicSegments (topic : String) : List String :=
  (splitChar '/' topic.data).map String.mk

/-- `parse_topic` (`core/mqtt/parser.py`): splits on `/`, requires
exactly 6 parts, and returns parts 1-4; any other segment count returns
`None` and the caller drops the message.  No segment content (neither
the literal `home` prefix nor the literal `state` suffix) is checked. -/
def parse_topic (topic : String) : Option (String × String × String × String) :=
  match topicSegments topic with
  | [_p0, p1, p2, p3, p4, _p5] => some (p1, p2, p3, p4)
  | _ => none

/-- Status-topic validation in `handle_status_message`
(`core/mqtt/handlers.py`): splits on `/`, requires exactly 4 parts, and
returns parts 1-2 (`home_id`, `node_name`); otherwise the message is
dropped. -/
def parseStatusTopic (topic : String) : Option (String × String) :=
  match topicSegments topic with
  | [_p0, p1, p2, _p3] => some (p1, p2)
  | _ => none

/-- `Entity.state_topic` (`core/models.py`): formats
`home/{home}/{node}/{type}/{name}/state`. -/
def state_topic (home node ty name : String) : String :=
  "home/" ++ home ++ "/" ++ node ++ "/" ++ ty ++ "/" ++ name ++ "/state"

/-- `Entity.command_topic` (`core/models.py`): formats
`home/{home}/{node}/{type}/{name}/command`. -/
def command_topic (home node ty name : String) : String :=
  "home/" ++ home ++ "/" ++ node ++ "/" ++ ty ++ "/" ++ name ++ "/command"

/-! ## Data model (`core/models.py`) -/

/-- `Entity` (`core/models.py`): the fields used by the verified paths.
`state` is the flexible JSON state map (`models.JSONField`); note the
model defines **no** `current_state` attribute — that name appears only
in `automation_executor.py`. -/
structure Entity where
  id : ℕ
  homeIdentifier : String
  nodeName : String
  entityType : String
  name : String
  state : List (String × PyVal)

/-- `Entity.state_topic` as a method on the model. -/
def Entity.stateTopic (e : Entity) : String :=
  state_topic e.homeIdentifier e.nodeName e.entityType e.name

/-- `Entity.command_topic` as a method on the model. -/
def Entity.commandTopic (e : Entity) : String :=
  command_topic e.homeIdentifier e.nodeName e.entityType e.name

/-- `AutomationTrigger` (`core/models.py`), state variant: the entity and
attribute it watches, a comparator drawn from the declared choices
`==`, `!=`, `>`, `<`, `>=`, `<=`, and the comparison value
(`models.JSONField`). -/
structure AutomationTrigger where
  entityId : ℕ
  attr : String
  operator : String
  value : PyVal

/-- `Automation` (`core/models.py`): enable flag, the trigger-combination
mode `trigger_logic` (declared choices `AND` / `OR`), the per-rule
`cooldown_seconds` (default 60) and the rule's triggers. -/
structure Automation where
  id : ℕ
  enabled : Bool
  triggerLogic : String
  cooldownSeconds : ℕ
  triggers : List AutomationTrigger

/-- `AutomationAction` (`core/models.py`), direct-entity variant: target
entity plus the JSON command payload. -/
structure AutomationAction where
  entity : Entity
  command : PyVal

/-- `SceneAction` (`core/models.py`): target entity, JSON value, and the
`order` key the scene runner sorts by. -/
structure SceneAction where
  entity : Entity
  value : PyVal
  order : ℕ

/-- Python exceptions that escape the embedded functions. -/
inductive PyErr where
  | attributeError
  | importError
deriving DecidableEq

/-! ## Python dict operations (insertion-ordered association lists) -/

/-- `d[k] = v` on a Python dict: replaces the value in place if the key
exists, otherwise appends the binding. -/
def dictSet (m : List (String × PyVal)) (k : String) (v : PyVal) :
    List (String × PyVal) :=
  match m with
  | [] => [(k, v)]
  | (k2, v2) :: rest =>
    if k2 = k then (k, v) :: rest else (k2, v2) :: dictSet rest k v

/-- `d.update(other)` on a Python dict: sets every binding of `other`
into `d`, left to right. -/
def dictUpdate (m other : List (String × PyVal)) : List (String × PyVal) :=
  other.foldl (fun acc kv => dictSet acc kv.1 kv.2) m

/-- `k in d` on a Python dict. -/
def hasKey (m : List (String × PyVal)) (k : String) : Bool :=
  (m.lookup k).isSome

/-- `d[k]` on a Python dict (callers below only use it under a
`hasKey` guard, so the `vNull` default is never observed). -/
def getKey (m : List (String × PyVal)) (k : String) : PyVal :=
  (m.lookup k).getD .vNull

/-! ## Automation engine (`core/automation_executor.py`) -/

/-- `MAX_EXECUTIONS_PER_MINUTE` (`core/automation_executor.py`). -/
def MAX_EXECUTIONS_PER_MINUTE : ℕ := 10

/-- `DEFAULT_COOLDOWN_SECONDS` (`core/automation_executor.py`). -/
def DEFAULT_COOLDOWN_SECONDS : ℕ := 60

/-- `AutomationExecutor.evaluate_trigger`: `>` and `<` compare
`float(value)` against `float(trigger.value)` (a coercion failure is
caught and yields `False`); `==` compares `str(value)` with
`str(trigger.value)`; any other operator — including the declared
`!=`, `>=`, `<=` — logs "Unknown operator" and returns `False`. -/
def evaluate_trigger (trigger : AutomationTrigger) (value : PyVal) : Bool :=
  if trigger.operator = ">" then
    match pyFloat value, pyFloat trigger.value with
    | some a, some b => decide (a > b)
    | _, _ => false
  else if trigger.operator = "<" then
    match pyFloat value, pyFloat trigger.value with
    | some a, some b => decide (a < b)
    | _, _ => false
  else if trigger.operator = "==" then
    decide (pyStr value = pyStr trigger.value)
  else
    false

/-- `Entity.objects.get(id=...)` over the modelled entity table. -/
def findEntity (db : List Entity) (eid : ℕ) : Option Entity :=
  db.find? (fun e => e.id == eid)

/-- `AutomationExecutor._check_all_triggers`: AND-only combination (the
source comment reads "For now, we implement AND logic"; the rule's
`trigger_logic` field is never consulted).  The trigger matching the
incoming (entity, attribute) is evaluated against `new_value`.  For any
*other* trigger the source looks the entity up and then reads
`entity.current_state`, an attribute the `Entity` model does not define
(the field is `state`), so Python raises `AttributeError` there; only
`Entity.DoesNotExist` is caught (returning `False`). -/
def check_all_triggers (db : List Entity) (automation : Automation)
    (entityId : ℕ) (attr : String) (newValue : PyVal) :
    Except PyErr Bool :=
  go automation.triggers
where
  /-- The `for trigger in triggers` loop. -/
  go : List AutomationTrigger → Except PyErr Bool
  | [] => .ok true
  | trigger :: rest =>
    if trigger.entityId = entityId ∧ trigger.attr = attr then
      if evaluate_trigger trigger newValue then go rest else .ok false
    else
      match findEntity db trigger.entityId with
      | none => .ok false
      | some _ => .error .attributeError

/-- The expiring Django cache entries the executor keeps, keyed by
automation id: the rolling execution counter
(`automation_executions_{id}`) and the cooldown flag
(`automation_cooldown_{id}`), each stored with the instant (seconds) at
which it expires.  Entries past their expiry read as absent. -/
structure ExecCache where
  rate : List (ℕ × ℕ × ℕ)
  cooldown : List (ℕ × ℕ)

/-- The cache before anything ran. -/
def ExecCache.empty : ExecCache := ⟨[], []⟩

/-- Set a key in an id-keyed cache table. -/
def setKey {β : Type} (l : List (ℕ × β)) (k : ℕ) (v : β) : List (ℕ × β) :=
  match l with
  | [] => [(k, v)]
  | (k2, v2) :: rest =>
    if k2 = k then (k, v) :: rest else (k2, v2) :: setKey rest k v

/-- `cache.get(f"automation_executions_{id}", 0)` at time `t`: the live
counter, or 0 when absent or expired. -/
def rateCount (aid t : ℕ) (st : ExecCache) : ℕ :=
  match st.rate.lookup aid with
  | some (c, exp) => if t < exp then c else 0
  | none => 0

/-- `AutomationExecutor.check_execution_limit`: refuses once the live
counter reaches `MAX_EXECUTIONS_PER_MINUTE`, otherwise stores
`count + 1` with a fresh 60-second timeout and allows execution. -/
def check_execution_limit (aid t : ℕ) (st : ExecCache) : Bool × ExecCache :=
  let count := rateCount aid t st
  if MAX_EXECUTIONS_PER_MINUTE ≤ count then (false, st)
  else (true, { st with rate := setKey st.rate aid (count + 1, t + 60) })

/-- `AutomationExecutor.should_execute_automation`: if the cooldown flag
is live the automation is still cooling down; otherwise the flag is set
with timeout `cooldown_seconds` and execution may proceed. -/
def should_execute_automation (aid cooldownSeconds t : ℕ) (st : ExecCache) :
    Bool × ExecCache :=
  let live :=
    match st.cooldown.lookup aid with
    | some exp => decide (t < exp)
    | none => false
  if live then (false, st)
  else (true, { st with cooldown := setKey st.cooldown aid (t + cooldownSeconds) })

/-- How one automation fares for one incoming state-change event. -/
inductive Outcome where
  | notSelected
  | triggersFalse
  | ruleError
  | rateLimited
  | cooldownSkipped
  | executed
deriving DecidableEq

/-- The queryset filter in
`AutomationExecutor.check_automations_for_entity`: enabled automations
having some trigger on this (entity, attribute). -/
def selectedFor (a : Automation) (entityId : ℕ) (attr : String) : Bool :=
  a.enabled &&
    a.triggers.any (fun tr => tr.entityId == entityId && tr.attr == attr)

/-- One automation's slice of
`AutomationExecutor.check_automations_for_entity` for one event at time
`t`: selection filter, then trigger check (an exception is caught by the
per-automation handler and the rule is skipped), then rate limit, then
cooldown — note the counter is consumed *before* the cooldown check, and
that the cooldown call site passes no `cooldown_seconds`, so the
default 60 applies, never `automation.cooldown_seconds`. -/
def process_automation (db : List Entity) (a : Automation) (entityId : ℕ)
    (attr : String) (newValue : PyVal) (t : ℕ) (st : ExecCache) :
    Outcome × ExecCache :=
  if ¬ selectedFor a entityId attr then (.notSelected, st)
  else
    match check_all_triggers db a entityId attr newValue with
    | .error _ => (.ruleError, st)
    | .ok false => (.triggersFalse, st)
    | .ok true =>
      match check_execution_limit a.id t st with
      | (false, st1) => (.rateLimited, st1)
      | (true, st1) =>
        match should_execute_automation a.id DEFAULT_COOLDOWN_SECONDS t st1 with
        | (false, st2) => (.cooldownSkipped, st2)
        | (true, st2) => (.executed, st2)

/-- Fold of `process_automation` over a sequence of event instants
(seconds) for one automation and one repeated qualifying event, threading
the cache. -/
def process_trace (db : List Entity) (a : Automation) (entityId : ℕ)
    (attr : String) (newValue : PyVal) :
    List ℕ → ExecCache → List Outcome × ExecCache
  | [], st => ([], st)
  | t :: ts, st =>
    let r := process_automation db a entityId attr newValue t st
    let rest := process_trace db a entityId attr newValue ts r.2
    (r.1 :: rest.1, rest.2)

/-! ## MQTT command encoding (`publish_command` in `core/mqtt/client.py`) -/

/-- Escape for JSON string contents (quote and backslash; the claims
only exercise plain alphanumeric keys and values). -/
def jsonEscape (s : String) : String :=
  ⟨s.data.foldr
    (fun c acc => if c = '"' ∨ c = '\\' then '\\' :: c :: acc else c :: acc) []⟩

mutual

/-- Python `json.dumps(x)` with its default separators (`, ` and `: `). -/
def jsonDumps : PyVal → String
  | .vStr s => "\"" ++ jsonEscape s ++ "\""
  | .vNum q => numStr q
  | .vBool b => if b then "true" else "false"
  | .vNull => "null"
  | .vList xs => "[" ++ String.intercalate ", " (jsonDumpsList xs) ++ "]"
  | .vDict m => "\x7b" ++ String.intercalate ", " (jsonDumpsDict m) ++ "\x7d"

/-- Encodings of the elements of a list value. -/
def jsonDumpsList : List PyVal → List String
  | [] => []
  | x :: xs => jsonDumps x :: jsonDumpsList xs

/-- Encodings of the bindings of a dict value. -/
def jsonDumpsDict : List (String × PyVal) → List String
  | [] => []
  | (k, v) :: m => ("\"" ++ jsonEscape k ++ "\": " ++ jsonDumps v) :: jsonDumpsDict m

end

/-- The payload conversion in `publish_command` (`core/mqtt/client.py`).
A dict with a single `value`, `power` or `state` key — tested in that
order — is flattened to that key's **raw stored value** (the code
comments assume it already holds the string `"ON"`/`"OFF"`; a boolean is
passed through unconverted); any other dict is JSON-encoded; non-dict
payloads are published as they are.  The MQTT socket publish itself is
external I/O; the returned value is what goes on the wire. -/
def publish_command : PyVal → PyVal
  | .vDict m =>
    if hasKey m "value" ∧ m.length = 1 then getKey m "value"
    else if hasKey m "power" ∧ m.length = 1 then getKey m "power"
    else if hasKey m "state" ∧ m.length = 1 then getKey m "state"
    else .vStr (jsonDumps (.vDict m))
  | v => v

/-- `AutomationExecutor.execute_device_action`: publishes the action's
raw `command` dict to the entity's command topic through
`publish_command`; result is the (topic, wire payload) pair. -/
def execute_device_action (action : AutomationAction) : String × PyVal :=
  (action.entity.commandTopic, publish_command action.command)

/-! ## Device control and state ingestion -/

/-- `control_entity` (`core/services/device_control.py`), used by the
local control API and by the cloud-bridge `control_entity` command:
publishes the command through `publish_command` and then *optimistically*
updates the stored state — a dict command is merged into the existing
state map with `dict.update`, a scalar is stored under the `value` key.
Result: the updated entity and the wire payload. -/
def DeviceControl.control_entity (e : Entity) (value : PyVal) : Entity × PyVal :=
  let wire := publish_command value
  match value with
  | .vDict m => ({ e with state := dictUpdate e.state m }, wire)
  | v => ({ e with state := dictSet e.state "value" v }, wire)

/-- `control_entity` (`core/tasks.py`), the variant the scene runner and
the legacy automation task call.  Its first statement is
`from core.mqtt.client import mqtt_client`, but `core/mqtt/client.py`
defines only `client` — the name `mqtt_client` does not exist in that
module — so every call raises `ImportError` before the publish and
before the optimistic `entity.state.update(command)` it was meant to
perform. -/
def Tasks.control_entity (e : Entity) (command : PyVal) :
    Except PyErr (Entity × PyVal) :=
  .error .importError

/-- The state replacement in `handle_state_message`
(`core/mqtt/handlers.py`): `entity.state = value if isinstance(value,
dict) else {"value": value}` — the state map is replaced wholesale with
the parsed payload, not merged. -/
def ingest_state (e : Entity) (value : PyVal) : Entity :=
  match value with
  | .vDict m => { e with state := m }
  | v => { e with state := [("value", v)] }

/-! ## Scene runner (`RunSceneView.post` in `core/api/scenes.py`) -/

/-- What the scene endpoint returns: a success response carrying
`actions_count`, or a 500 error response produced by the surrounding
`except Exception` handler. -/
inductive SceneRunResult where
  | ok (actionsCount : ℕ)
  | serverError (e : PyErr)
deriving DecidableEq

/-- The action loop of `RunSceneView.post`: iterate the actions in
stored order, calling `core.tasks.control_entity` synchronously for
each; nothing in the loop catches exceptions, so the first raised
exception aborts the remaining iterations. -/
def runSceneActions : List SceneAction → Except PyErr Unit
  | [] => .ok ()
  | a :: rest =>
    (Tasks.control_entity a.entity a.value).bind fun _ => runSceneActions rest

/-- `RunSceneView.post` (`core/api/scenes.py`): loads the scene's
actions ordered by `order`, runs them through `runSceneActions`, and on
success responds with the total `actions_count`; an exception anywhere
in the loop is caught by the surrounding `except Exception` and turned
into a 500 error response.  No error detail short of the 500, and no
per-action first-error field, appears in the success response. -/
def run_scene_view (actions : List SceneAction) : SceneRunResult :=
  let sorted := actions.insertionSort (fun x y => x.order ≤ y.order)
  match runSceneActions sorted with
  | .ok _ => .ok sorted.length
  | .error e => .serverError e

/-- Splitting never produces the empty segment list. -/
theorem splitChar_ne_nil (c : Char) (l : List Char) : splitChar c l ≠ [] := by
  cases l with
  | nil => simp [splitChar]
  | cons x xs =>
    simp only [splitChar]
    cases splitChar c xs with
    | nil => simp
    | cons h t =>
      by_cases hx : x = c <;> simp [hx]

/-- Rejoining the split of a string recovers the string. -/
theorem joinChar_splitChar (c : Char) (l : List Char) :
    joinChar c (splitChar c l) = l := by
  induction l with
  | nil => rfl
  | cons x xs ih =>
    simp only [splitChar]
    rcases hs : splitChar c xs with _ | ⟨h, t⟩
    · exact absurd hs (splitChar_ne_nil c xs)
    · rw [hs] at ih
      by_cases hx : x = c
      · subst hx
        simpa [joinChar] using ih
      · simp only [if_neg hx]
        cases t with
        | nil => simpa [joinChar] using ih
        | cons t0 ts => simpa [joinChar] using ih

/-- Strings with equal character data are equal. -/
theorem string_eq_of_data {s t : String} (h : s.data = t.data) : s = t := by
  cases s; cases t; exact congrArg String.mk h

/-- C6 (amended): `parse_topic` succeeds exactly when the topic has six
`/`-separated segments, and the status-topic check succeeds exactly on
four segments; no literal `home`/`state`/`status` segment is validated,
and on failure the handlers drop the message without retry. -/
theorem parse_topic_success_iff :
    (∀ t : String, (parse_topic t).isSome ↔ (topicSegments t).length = 6) ∧
    (∀ t : String, (parseStatusTopic t).isSome ↔ (topicSegments t).length = 4) := by
  constructor
  · intro t
    rcases h : topicSegments t with _ | ⟨a, _ | ⟨b, _ | ⟨c, _ | ⟨d, _ | ⟨e, _ | ⟨f, _ | g⟩⟩⟩⟩⟩⟩ <;>
      simp [parse_topic, h]
  · intro t
    rcases h : topicSegments t with _ | ⟨a, _ | ⟨b, _ | ⟨c, _ | ⟨d, _ | g⟩⟩⟩⟩ <;>
      simp [parseStatusTopic, h]

/-- C6 is false as stated: decode does not succeed *only* on topics of
shape `home/{home}/{node}/{kind}/{name}/state` — any six-segment topic
decodes, here one whose first segment is not `home` and whose last is
not `state`. -/
theorem parse_topic_accepts_non_home_shape :
    parse_topic "x/a/b/c/d/y" = some ("a", "b", "c", "d") ∧
    topicSegments "x/a/b/c/d/y" ≠ ["home", "a", "b", "c", "d", "state"] := by
  constructor
  · rfl
  · decide

/-- C7: decoding a valid 6-segment state topic
(`home/{home}/{node}/{kind}/{name}/state`) and re-encoding the resulting
address with `Entity.state_topic` yields the identical topic string, and
analogously for the `command` suffix with `Entity.command_topic`. -/
theorem decode_encode_roundtrip :
    (∀ (t : String) (a b c d : List Char),
        splitChar '/' t.data = ["home".data, a, b, c, d, "state".data] →
        parse_topic t = some (⟨a⟩, ⟨b⟩, ⟨c⟩, ⟨d⟩) ∧
        state_topic ⟨a⟩ ⟨b⟩ ⟨c⟩ ⟨d⟩ = t) ∧
    (∀ (t : String) (a b c d : List Char),
        splitChar '/' t.data = ["home".data, a, b, c, d, "command".data] →
        parse_topic t = some (⟨a⟩, ⟨b⟩, ⟨c⟩, ⟨d⟩) ∧
        command_topic ⟨a⟩ ⟨b⟩ ⟨c⟩ ⟨d⟩ = t) := by
  constructor
  all_goals
    intro t a b c d hsplit
    have hjoin := joinChar_splitChar '/' t.data
    rw [hsplit] at hjoin
    refine ⟨?_, ?_⟩
  · unfold parse_topic topicSegments
    rw [hsplit]
    rfl
  · apply string_eq_of_data
    rw [← hjoin]
    simp [state_topic, joinChar, String.data_append]
  · unfold parse_topic topicSegments
    rw [hsplit]
    rfl
  · apply string_eq_of_data
    rw [← hjoin]
    simp [command_topic, joinChar, String.data_append]

/-- Witness for C7 at a concrete state topic and a concrete command
topic. -/
theorem decode_encode_roundtrip_witness :
    (parse_topic "home/h1/node1/switch/lamp/state" =
        some ("h1", "node1", "switch", "lamp") ∧
      state_topic "h1" "node1" "switch" "lamp" =
        "home/h1/node1/switch/lamp/state") ∧
    (parse_topic "home/h1/node1/fan/ceiling/command" =
        some ("h1", "node1", "fan", "ceiling") ∧
      command_topic "h1" "node1" "fan" "ceiling" =
        "home/h1/node1/fan/ceiling/command") :=
  ⟨decode_encode_roundtrip.1 "home/h1/node1/switch/lamp/state"
      "h1".data "node1".data "switch".data "lamp".data rfl,
    decode_encode_roundtrip.2 "home/h1/node1/fan/ceiling/command"
      "h1".data "node1".data "fan".data "ceiling".data rfl⟩

end SmartHome

namespace SmartHome

/-- C1 is false as stated: the engine does not support all six
comparators.  `>=`, `!=` and `<=` evaluate to false even on plainly
satisfying numeric values (5 >= 3, 5 != 3, 2 <= 3), and `==` performs no
numeric coercion: numeric `1` against threshold string `"1.0"` is false
although both coerce to the same number. -/
theorem evaluate_trigger_missing_operators :
    evaluate_trigger ⟨1, "state", ">=", .vNum 3⟩ (.vNum 5) = false ∧
    evaluate_trigger ⟨1, "state", "!=", .vNum 3⟩ (.vNum 5) = false ∧
    evaluate_trigger ⟨1, "state", "<=", .vNum 3⟩ (.vNum 2) = false ∧
    evaluate_trigger ⟨1, "state", "==", .vStr "1.0"⟩ (.vNum 1) = false ∧
    pyFloat (.vNum 1) = pyFloat (.vStr "1.0") := by
  refine ⟨rfl, rfl, rfl, ?_, ?_⟩
  · decide
  · show pyFloat (.vNum 1) = parseFloat? "1.0"
    rw [show parseFloat? "1.0" = parseDecimal ['1', '.', '0'] from rfl]
    simp [parseDecimal, spanDigits, parseExponent, natOfDigits, pyFloat]

/-- C1 (amended): the engine supports exactly three comparators.  `>`
and `<` hold iff both sides coerce numerically and compare accordingly
(a coercion failure yields false); `==` is pure string equality with no
numeric coercion; every operator outside `>`, `<`, `==` — including the
declared `!=`, `>=`, `<=` — always evaluates to false. -/
theorem evaluate_trigger_characterization :
    (∀ (tr : AutomationTrigger) (v : PyVal), tr.operator = ">" →
      (evaluate_trigger tr v = true ↔
        ∃ a b, pyFloat v = some a ∧ pyFloat tr.value = some b ∧ b < a)) ∧
    (∀ (tr : AutomationTrigger) (v : PyVal), tr.operator = "<" →
      (evaluate_trigger tr v = true ↔
        ∃ a b, pyFloat v = some a ∧ pyFloat tr.value = some b ∧ a < b)) ∧
    (∀ (tr : AutomationTrigger) (v : PyVal), tr.operator = "==" →
      (evaluate_trigger tr v = true ↔ pyStr v = pyStr tr.value)) ∧
    (∀ (tr : AutomationTrigger) (v : PyVal),
      tr.operator ∉ ([">", "<", "=="] : List String) →
      evaluate_trigger tr v = false) := by
  refine ⟨?_, ?_, ?_, ?_⟩
  · intro tr v h
    simp only [evaluate_trigger, h, if_pos rfl]
    cases hv : pyFloat v <;> cases hw : pyFloat tr.value <;> simp [gt_iff_lt]
  · intro tr v h
    have hne : tr.operator ≠ ">" := by simp [h]
    simp only [evaluate_trigger, h, if_neg hne, if_pos rfl]
    cases hv : pyFloat v <;> cases hw : pyFloat tr.value <;> simp
  · intro tr v h
    have h1 : tr.operator ≠ ">" := by simp [h]
    have h2 : tr.operator ≠ "<" := by simp [h]
    simp [evaluate_trigger, h1, h2, h]
  · intro tr v h
    simp only [List.mem_cons, List.mem_singleton, not_or] at h
    obtain ⟨h1, h2, h3⟩ := h
    simp [evaluate_trigger, h1, h2, h3]

/-- Witness for C1 (amended) at concrete inputs: `5 > 3` fires, `2 < 3`
fires, `==` fires on equal strings, and `>=` never fires. -/
theorem evaluate_trigger_characterization_witness :
    evaluate_trigger ⟨1, "state", ">", .vNum 3⟩ (.vNum 5) = true ∧
    evaluate_trigger ⟨1, "state", "<", .vNum 3⟩ (.vNum 2) = true ∧
    evaluate_trigger ⟨1, "state", "==", .vStr "ON"⟩ (.vStr "ON") = true ∧
    evaluate_trigger ⟨1, "state", ">=", .vNum 3⟩ (.vNum 5) = false :=
  ⟨(evaluate_trigger_characterization.1 ⟨1, "state", ">", .vNum 3⟩ (.vNum 5)
      rfl).mpr ⟨5, 3, rfl, rfl, by norm_num⟩,
    (evaluate_trigger_characterization.2.1 ⟨1, "state", "<", .vNum 3⟩ (.vNum 2)
      rfl).mpr ⟨2, 3, rfl, rfl, by norm_num⟩,
    (evaluate_trigger_characterization.2.2.1 ⟨1, "state", "==", .vStr "ON"⟩
      (.vStr "ON") rfl).mpr rfl,
    evaluate_trigger_characterization.2.2.2 ⟨1, "state", ">=", .vNum 3⟩
      (.vNum 5) (by decide)⟩

/-- The trigger loop of `_check_all_triggers` returns `ok true` exactly
when every trigger in the list targets the incoming (entity, attribute)
and evaluates true on the incoming value: a trigger on any *other*
(entity, attribute) makes the loop return `ok false` (missing entity) or
raise (`current_state` attribute access), never `ok true`. -/
theorem check_go_ok_true_iff (db : List Entity) (eid : ℕ) (attr : String)
    (v : PyVal) (l : List AutomationTrigger) :
    check_all_triggers.go db eid attr v l = .ok true ↔
      ∀ tr ∈ l, (tr.entityId = eid ∧ tr.attr = attr) ∧
        evaluate_trigger tr v = true := by
  induction l with
  | nil => simp [check_all_triggers.go]
  | cons t rest ih =>
    simp only [check_all_triggers.go]
    by_cases hk : t.entityId = eid ∧ t.attr = attr
    · rw [if_pos hk]
      by_cases he : evaluate_trigger t v = true
      · simp [he, ih, hk]
      · simp only [Bool.not_eq_true] at he
        simp [he, hk]
    · rw [if_neg hk]
      rcases hf : findEntity db t.entityId with _ | e <;> simp [hk]

/-- C2 (amended): trigger results are always combined with ALL
semantics — the rule fires only when *every* trigger is true on the
incoming event — irrespective of the rule's configured `trigger_logic`
(the statement quantifies over rules with any mode, `OR` included,
which the executor never consults); and a rule with zero triggers is
never selected by the queryset filter, hence never fires. -/
theorem trigger_combination_is_and_only :
    (∀ (i : ℕ) (en : Bool) (lg : String) (cd eid : ℕ) (attr : String),
      selectedFor ⟨i, en, lg, cd, []⟩ eid attr = false) ∧
    (∀ (db : List Entity) (a : Automation) (eid : ℕ) (attr : String) (v : PyVal),
      check_all_triggers db a eid attr v = .ok true ↔
        ∀ tr ∈ a.triggers, (tr.entityId = eid ∧ tr.attr = attr) ∧
          evaluate_trigger tr v = true) := by
  constructor
  · intro i en lg cd eid attr
    simp [selectedFor]
  · intro db a eid attr v
    exact check_go_ok_true_iff db eid attr v a.triggers

/-- C2 is false as stated: a rule configured with mode `OR` (ANY), two
triggers on the same entity/attribute of which exactly one is true on
the incoming value, does not fire — the executor combines with AND
regardless of the configured mode, so the result is `triggersFalse`,
not an execution. -/
theorem or_mode_not_implemented :
    (Automation.mk 7 true "OR" 60
        [⟨1, "state", "==", .vStr "ON"⟩,
          ⟨1, "state", "==", .vStr "OFF"⟩]).triggerLogic = "OR" ∧
    evaluate_trigger ⟨1, "state", "==", .vStr "ON"⟩ (.vStr "ON") = true ∧
    check_all_triggers []
        ⟨7, true, "OR", 60,
          [⟨1, "state", "==", .vStr "ON"⟩, ⟨1, "state", "==", .vStr "OFF"⟩]⟩
        1 "state" (.vStr "ON") = .ok false ∧
    (process_automation []
        ⟨7, true, "OR", 60,
          [⟨1, "state", "==", .vStr "ON"⟩, ⟨1, "state", "==", .vStr "OFF"⟩]⟩
        1 "state" (.vStr "ON") 0 .empty).1 = .triggersFalse :=
  ⟨rfl, rfl, rfl, rfl⟩

/-- C3: the claim describes the intended re-read of another trigger's
live entity state, but evaluating a rule containing a trigger on a
*different* entity raises `AttributeError` — the source reads
`entity.current_state`, an attribute the `Entity` model does not define
(its field is `state`) — so the per-automation handler swallows the
exception and the rule is skipped (`ruleError`), even though the other
entity's stored value (`OFF` under the `value` key here) satisfies its
comparator. -/
theorem other_trigger_read_raises_attribute_error :
    getKey (Entity.mk 2 "h1" "node1" "switch" "heater"
        [("value", .vStr "OFF")]).state "value" = .vStr "OFF" ∧
    evaluate_trigger ⟨2, "state", "==", .vStr "OFF"⟩ (.vStr "OFF") = true ∧
    check_all_triggers
        [⟨2, "h1", "node1", "switch", "heater", [("value", .vStr "OFF")]⟩]
        ⟨9, true, "AND", 60,
          [⟨1, "state", "==", .vStr "ON"⟩, ⟨2, "state", "==", .vStr "OFF"⟩]⟩
        1 "state" (.vStr "ON") = .error .attributeError ∧
    (process_automation
        [⟨2, "h1", "node1", "switch", "heater", [("value", .vStr "OFF")]⟩]
        ⟨9, true, "AND", 60,
          [⟨1, "state", "==", .vStr "ON"⟩, ⟨2, "state", "==", .vStr "OFF"⟩]⟩
        1 "state" (.vStr "ON") 0 .empty).1 = .ruleError :=
  ⟨rfl, rfl, rfl, rfl⟩

/-- Setting a key makes it readable. -/
theorem lookup_setKey_self {β : Type} (l : List (ℕ × β)) (k : ℕ) (v : β) :
    (setKey l k v).lookup k = some v := by
  induction l with
  | nil => simp [setKey]
  | cons p rest ih =>
    obtain ⟨k2, v2⟩ := p
    by_cases h : k2 = k
    · subst h
      simp [setKey]
    · have hbeq : (k == k2) = false := by simp [Ne.symm h]
      simp [setKey, h, List.lookup, hbeq, ih]

/-- The rate-limit check never touches the cooldown table. -/
theorem check_execution_limit_cooldown (aid t : ℕ) (st : ExecCache) :
    ((check_execution_limit aid t st).2).cooldown = st.cooldown := by
  by_cases hc : MAX_EXECUTIONS_PER_MINUTE ≤ rateCount aid t st <;>
    simp [check_execution_limit, hc]

/-- Inversion of an `executed` outcome: the rule was selected, all
triggers were true, the counter was consumed, and the cooldown flag was
stored with expiry `t + 60` (the fixed default — the rule's own
`cooldown_seconds` plays no part). -/
theorem process_executed_inversion
    (db : List Entity) (a : Automation) (eid : ℕ) (attr : String) (v : PyVal)
    (t : ℕ) (st st1 : ExecCache)
    (h : process_automation db a eid attr v t st = (.executed, st1)) :
    selectedFor a eid attr = true ∧
    check_all_triggers db a eid attr v = .ok true ∧
    st1.cooldown.lookup a.id = some (t + DEFAULT_COOLDOWN_SECONDS) := by
  unfold process_automation at h
  split at h
  · simp at h
  · rename_i hsel
    refine ⟨by simpa using hsel, ?_⟩
    split at h
    · simp at h
    · simp at h
    · rename_i htr
      refine ⟨htr, ?_⟩
      split at h
      · simp at h
      · rename_i st1r hlim
        split at h
        · simp at h
        · rename_i st2 hcd
          simp only [Prod.mk.injEq, true_and] at h
          subst h
          unfold should_execute_automation at hcd
          split at hcd
          · dsimp only at hcd
            split at hcd
            · simp at hcd
            · have h2 : st2 =
                  { st1r with
                    cooldown := setKey st1r.cooldown a.id
                      (t + DEFAULT_COOLDOWN_SECONDS) } := by
                simpa using hcd.symm
              subst h2
              simp [lookup_setKey_self]
          · dsimp only at hcd
            have h2 : st2 =
                { st1r with
                  cooldown := setKey st1r.cooldown a.id
                    (t + DEFAULT_COOLDOWN_SECONDS) } := by
              simpa using hcd.symm
            subst h2
            simp [lookup_setKey_self]

/-- C8 (amended): cooldown is enforced per rule, but always with the
fixed default 60-second window — `check_automations_for_entity` calls
`should_execute_automation(automation.id)` without passing the rule's
`cooldown_seconds`, so the configured value is ignored.  After a rule
executes at time `t`, a qualifying, non-rate-limited event at `t2` is
skipped iff `t2 < t + 60`; concretely a rule behaves exactly as the
spec's 60-second example: fires at t=0, skipped at t=30, eligible at
t=61. -/
theorem cooldown_window_is_fixed_60 :
    (∀ (db : List Entity) (a : Automation) (eid : ℕ) (attr : String)
        (v : PyVal) (t t2 : ℕ) (st st1 : ExecCache),
      process_automation db a eid attr v t st = (.executed, st1) →
      rateCount a.id t2 st1 < MAX_EXECUTIONS_PER_MINUTE →
      (process_automation db a eid attr v t2 st1).1 =
        if t2 < t + DEFAULT_COOLDOWN_SECONDS then .cooldownSkipped
        else .executed) ∧
    (process_trace []
        ⟨5, true, "AND", 60, [⟨1, "state", "==", .vStr "ON"⟩]⟩
        1 "state" (.vStr "ON") [0, 30, 61] .empty).1 =
      [.executed, .cooldownSkipped, .executed] := by
  constructor
  · intro db a eid attr v t t2 st st1 hexec hrate
    obtain ⟨hsel, htr, hcd⟩ :=
      process_executed_inversion db a eid attr v t st st1 hexec
    have hnotle : ¬ MAX_EXECUTIONS_PER_MINUTE ≤ rateCount a.id t2 st1 := by
      omega
    by_cases hlt : t2 < t + DEFAULT_COOLDOWN_SECONDS <;>
      simp [process_automation, hsel, htr, check_execution_limit, hnotle,
        should_execute_automation, hcd, hlt]
  · rfl

/-- Witness for C8 (amended): the automation that executed at t=0
(leaving counter 1 and cooldown expiry 60 in the cache) is
cooldown-skipped at t=30. -/
theorem cooldown_window_is_fixed_60_witness :
    (process_automation []
        ⟨5, true, "AND", 60, [⟨1, "state", "==", .vStr "ON"⟩]⟩
        1 "state" (.vStr "ON") 30 ⟨[(5, 1, 60)], [(5, 60)]⟩).1 =
      .cooldownSkipped := by
  have h := cooldown_window_is_fixed_60.1 []
    ⟨5, true, "AND", 60, [⟨1, "state", "==", .vStr "ON"⟩]⟩
    1 "state" (.vStr "ON") 0 30 .empty ⟨[(5, 1, 60)], [(5, 60)]⟩
    rfl (by decide)
  simpa using h

/-- C8 is false as stated: a rule whose configured cooldown is 120
seconds fires at t=0 and fires *again* at t=61, although 61 seconds is
well inside the configured 120-second window — the executor used the
fixed 60-second default instead. -/
theorem configured_cooldown_ignored :
    (Automation.mk 3 true "AND" 120
        [⟨1, "state", "==", .vStr "ON"⟩]).cooldownSeconds = 120 ∧
    (process_trace []
        ⟨3, true, "AND", 120, [⟨1, "state", "==", .vStr "ON"⟩]⟩
        1 "state" (.vStr "ON") [0, 61] .empty).1 =
      [.executed, .executed] :=
  ⟨rfl, rfl⟩

/-- With no cooldown flag stored for the rule, one event can never be
cooldown-skipped (the flag is only ever written on the way to an
execution), and unless the event executes, the flag stays absent. -/
theorem process_cooldown_none
    (db : List Entity) (a : Automation) (eid : ℕ) (attr : String) (v : PyVal)
    (t : ℕ) (st : ExecCache)
    (hnone : st.cooldown.lookup a.id = none) :
    (process_automation db a eid attr v t st).1 ≠ .cooldownSkipped ∧
    ((process_automation db a eid attr v t st).1 ≠ .executed →
      ((process_automation db a eid attr v t st).2).cooldown.lookup a.id =
        none) := by
  unfold process_automation
  split
  · simpa using hnone
  · split
    · simpa using hnone
    · simpa using hnone
    · rcases hlim : check_execution_limit a.id t st with ⟨ok, st1⟩
      have hst1 : st1.cooldown = st.cooldown := by
        have := check_execution_limit_cooldown a.id t st
        rw [hlim] at this
        exact this
      cases ok
      · simp [hlim, hst1, hnone]
      · have hse : should_execute_automation a.id DEFAULT_COOLDOWN_SECONDS t st1 =
            (true, { st1 with
              cooldown := setKey st1.cooldown a.id
                (t + DEFAULT_COOLDOWN_SECONDS) }) := by
          simp [should_execute_automation, hst1, hnone]
        simp [hlim, hse]

/-- The cooldown check never touches the rate table. -/
theorem should_execute_automation_rate (aid cd t : ℕ) (st : ExecCache) :
    ((should_execute_automation aid cd t st).2).rate = st.rate := by
  cases hl : st.cooldown.lookup aid
  · simp [should_execute_automation, hl]
  · simp only [should_execute_automation, hl]
    split <;> rfl

/-- C10 (amended): the per-minute counter is consumed *before* the
cooldown check — any selected event whose triggers pass and that is not
rate-limited increments the rule's counter, including events that the
cooldown then skips — but a cooldown-skip can only happen after the rule
executed (the flag is written only on the way to an execution), so the
limit of 10 cannot be exhausted by cooldown-skipped events alone with no
execution having occurred. -/
theorem rate_limit_counts_cooldown_skips :
    (∀ (db : List Entity) (a : Automation) (eid : ℕ) (attr : String)
        (v : PyVal) (t : ℕ) (st : ExecCache),
      selectedFor a eid attr = true →
      check_all_triggers db a eid attr v = .ok true →
      rateCount a.id t st < MAX_EXECUTIONS_PER_MINUTE →
      rateCount a.id t ((process_automation db a eid attr v t st).2) =
        rateCount a.id t st + 1) ∧
    (∀ (db : List Entity) (a : Automation) (eid : ℕ) (attr : String)
        (v : PyVal) (ts : List ℕ) (st : ExecCache),
      st.cooldown.lookup a.id = none →
      Outcome.executed ∉ (process_trace db a eid attr v ts st).1 →
      Outcome.cooldownSkipped ∉ (process_trace db a eid attr v ts st).1) := by
  constructor
  · intro db a eid attr v t st hsel htr hrate
    have hnotle : ¬ MAX_EXECUTIONS_PER_MINUTE ≤ rateCount a.id t st := by
      omega
    have hlim : check_execution_limit a.id t st =
        (true, { st with rate := setKey st.rate a.id (rateCount a.id t st + 1, t + 60) }) := by
      simp [check_execution_limit, hnotle]
    rcases hse : should_execute_automation a.id DEFAULT_COOLDOWN_SECONDS t
        { st with rate := setKey st.rate a.id (rateCount a.id t st + 1, t + 60) }
      with ⟨ok, st2⟩
    have hst2 : st2.rate = setKey st.rate a.id (rateCount a.id t st + 1, t + 60) := by
      have h2 := congrArg (fun p => p.2.rate) hse
      dsimp only at h2
      rw [should_execute_automation_rate] at h2
      simpa using h2.symm
    have hfresh : t < t + 60 := by omega
    cases ok
    all_goals
      simp only [process_automation, hsel, htr, hlim, hse]
      simp [rateCount, hst2, lookup_setKey_self, hfresh]
  · intro db a eid attr v ts
    induction ts with
    | nil => simp [process_trace]
    | cons t rest ih =>
      intro st hnone hne
      simp only [process_trace, List.mem_cons] at hne ⊢
      push_neg at hne
      obtain ⟨h1, h2⟩ := hne
      have step := process_cooldown_none db a eid attr v t st hnone
      push_neg
      refine ⟨fun hc => step.1 hc.symm, ?_⟩
      exact ih _ (step.2 (fun he => h1 he.symm)) h2

/-- C10 is false as stated on the densest possible qualifying trace: a
rule firing at t=0 and hit by qualifying events each second thereafter
accumulates only *nine* cooldown-skipped events — the counter (already
holding the execution itself) reaches the limit of 10 and the next
qualifying event is rate-limited, not cooldown-skipped; and the
exhaustion required an execution to have occurred. -/
theorem ten_cooldown_skips_impossible :
    (process_trace []
        ⟨6, true, "AND", 60, [⟨1, "state", "==", .vStr "ON"⟩]⟩
        1 "state" (.vStr "ON") [0, 1, 2, 3, 4, 5, 6, 7, 8, 9, 10] .empty).1 =
      [.executed, .cooldownSkipped, .cooldownSkipped, .cooldownSkipped,
        .cooldownSkipped, .cooldownSkipped, .cooldownSkipped, .cooldownSkipped,
        .cooldownSkipped, .cooldownSkipped, .rateLimited] := rfl

/-- Witness for C10 (amended): a cooldown-skipped event at t=30 (after
the t=0 execution) raises the live counter from 1 to 2, and a disabled
rule's trace with no execution contains no cooldown-skip. -/
theorem rate_limit_counts_cooldown_skips_witness :
    rateCount 5 30
      ((process_automation []
          ⟨5, true, "AND", 60, [⟨1, "state", "==", .vStr "ON"⟩]⟩
          1 "state" (.vStr "ON") 30 ⟨[(5, 1, 60)], [(5, 60)]⟩).2) = 2 ∧
    Outcome.cooldownSkipped ∉
      (process_trace []
          ⟨8, false, "AND", 60, [⟨1, "state", "==", .vStr "ON"⟩]⟩
          1 "state" (.vStr "ON") [0, 30] .empty).1 := by
  constructor
  · have h := rate_limit_counts_cooldown_skips.1 []
      ⟨5, true, "AND", 60, [⟨1, "state", "==", .vStr "ON"⟩]⟩
      1 "state" (.vStr "ON") 30 ⟨[(5, 1, 60)], [(5, 60)]⟩
      rfl rfl (by decide)
    simpa using h
  · exact rate_limit_counts_cooldown_skips.2 []
      ⟨8, false, "AND", 60, [⟨1, "state", "==", .vStr "ON"⟩]⟩
      1 "state" (.vStr "ON") [0, 30] .empty rfl (by decide)

/-- C4 is false as stated: a structured command containing only a
boolean `power` key is *not* flattened to the literal string
`"ON"`/`"OFF"` — `publish_command` extracts the raw value, so the
automation-action command `{"power": true}` goes on the wire as the
boolean `true`, not the string `"ON"`; and a command containing only a
`state` key, which the claim's "any other structured command" clause
covers, is flattened too rather than sent as an encoded structured
payload. -/
theorem power_command_not_flattened_to_on :
    publish_command (.vDict [("power", .vBool true)]) = .vBool true ∧
    publish_command (.vDict [("power", .vBool true)]) ≠ .vStr "ON" ∧
    execute_device_action
        ⟨⟨2, "h1", "node1", "fan", "ceiling", []⟩,
          .vDict [("power", .vBool true)]⟩ =
      ("home/h1/node1/fan/ceiling/command", .vBool true) ∧
    publish_command (.vDict [("state", .vStr "ON")]) = .vStr "ON" :=
  ⟨rfl, fun h => PyVal.noConfusion h, rfl, rfl⟩

/-- C4 (amended): `publish_command` flattens a one-key dict whose key is
`value`, `power` or `state` to that key's raw value (no boolean →
`"ON"`/`"OFF"` conversion anywhere), passes non-dict payloads through,
and JSON-encodes every other dict. -/
theorem publish_command_flattening :
    (∀ v : PyVal, publish_command (.vDict [("value", v)]) = v) ∧
    (∀ v : PyVal, publish_command (.vDict [("power", v)]) = v) ∧
    (∀ v : PyVal, publish_command (.vDict [("state", v)]) = v) ∧
    (∀ s : String, publish_command (.vStr s) = .vStr s) ∧
    (∀ q : ℚ, publish_command (.vNum q) = .vNum q) ∧
    publish_command (.vDict [("power", .vBool true), ("brightness", .vNum 80)]) =
      .vStr "\x7b\"power\": true, \"brightness\": 80\x7d" := by
  refine ⟨fun v => rfl, fun v => rfl, fun v => rfl, fun s => rfl, fun q => rfl, ?_⟩
  rfl

/-- C5: the claim matches the code's own best-effort intent (the scene
loop is written to run every action in stored order), but every call to
`core.tasks.control_entity` raises `ImportError` at its first statement
(`from core.mqtt.client import mqtt_client`; that module defines only
`client`), so a 3-action scene aborts on action 1: nothing is
published, actions 2 and 3 never run, and the endpoint returns a 500
error response carrying neither an executed count nor a first-error
field. -/
theorem scene_run_aborts_on_first_action :
    run_scene_view
        [⟨⟨1, "h1", "node1", "switch", "lamp", []⟩, .vStr "ON", 0⟩,
          ⟨⟨2, "h1", "node1", "fan", "ceiling", []⟩,
            .vDict [("power", .vBool true)], 1⟩,
          ⟨⟨1, "h1", "node1", "switch", "lamp", []⟩, .vStr "OFF", 2⟩] =
      .serverError .importError ∧
    Tasks.control_entity ⟨1, "h1", "node1", "switch", "lamp", []⟩
        (.vStr "ON") = .error .importError :=
  ⟨rfl, rfl⟩

/-- Looking a key up after a single-key store. -/
theorem lookup_dictSet (m : List (String × PyVal)) (k k2 : String) (v : PyVal) :
    (dictSet m k2 v).lookup k = if k = k2 then some v else m.lookup k := by
  induction m with
  | nil =>
    by_cases h : k = k2
    · simp [dictSet, List.lookup, h]
    · have hbeq : (k == k2) = false := by simp [h]
      simp [dictSet, List.lookup, h, hbeq]
  | cons p rest ih =>
    obtain ⟨k3, v3⟩ := p
    by_cases h3 : k3 = k2
    · subst h3
      by_cases h : k = k3
      · simp [dictSet, List.lookup, h]
      · have hbeq : (k == k3) = false := by simp [h]
        simp [dictSet, List.lookup, h, hbeq]
    · by_cases h : k = k3
      · subst h
        simp [dictSet, h3, List.lookup]
      · have hbeq : (k == k3) = false := by simp [h]
        simp [dictSet, h3, List.lookup, hbeq, ih]

/-- `dict.update` leaves keys absent from the update untouched. -/
theorem lookup_dictUpdate_absent (other : List (String × PyVal)) :
    ∀ (m : List (String × PyVal)) (k : String), hasKey other k = false →
      (dictUpdate m other).lookup k = m.lookup k := by
  induction other with
  | nil => intro m k _; rfl
  | cons p rest ih =>
    intro m k h
    obtain ⟨k2, v2⟩ := p
    have hk : ¬ k = k2 := by
      intro hh
      subst hh
      simp [hasKey, List.lookup] at h
    have hrest : hasKey rest k = false := by
      have hbeq : (k == k2) = false := by simp [hk]
      simpa [hasKey, List.lookup, hbeq] using h
    calc (dictUpdate m ((k2, v2) :: rest)).lookup k
        = (dictUpdate (dictSet m k2 v2) rest).lookup k := rfl
      _ = (dictSet m k2 v2).lookup k := ih _ k hrest
      _ = m.lookup k := by rw [lookup_dictSet]; simp [hk]

/-- C9 (amended): commands executed through
`core.services.device_control.control_entity` (local control API,
inbound bridge commands) update the stored state optimistically at
publish time by *merging*: a dict command is `dict.update`d into the
existing state (keys absent from the command are preserved, command
keys override), a scalar is stored under `value` — while state
*ingestion* replaces the state map wholesale.  (The `core.tasks`
variant used by scene steps never reaches its own merge: see the C9
counterexample.) -/
theorem control_entity_merges_ingest_replaces :
    (∀ (e : Entity) (m : List (String × PyVal)) (k : String),
      hasKey m k = false →
      ((DeviceControl.control_entity e (.vDict m)).1.state).lookup k =
        e.state.lookup k) ∧
    (∀ (e : Entity) (k : String) (v : PyVal),
      ((DeviceControl.control_entity e (.vDict [(k, v)])).1.state).lookup k =
        some v) ∧
    (∀ (e : Entity) (s : String),
      ((DeviceControl.control_entity e (.vStr s)).1.state).lookup "value" =
        some (.vStr s)) ∧
    (∀ (e : Entity) (m : List (String × PyVal)),
      (ingest_state e (.vDict m)).state = m) ∧
    (∀ (e : Entity) (s : String),
      (ingest_state e (.vStr s)).state = [("value", .vStr s)]) := by
  refine ⟨?_, ?_, ?_, fun e m => rfl, fun e s => rfl⟩
  · intro e m k h
    exact lookup_dictUpdate_absent m e.state k h
  · intro e k v
    show (dictUpdate e.state [(k, v)]).lookup k = some v
    rw [show dictUpdate e.state [(k, v)] = dictSet e.state k v from rfl,
      lookup_dictSet]
    simp
  · intro e s
    show (dictSet e.state "value" (.vStr s)).lookup "value" = some (.vStr s)
    rw [lookup_dictSet]
    simp

/-- Witness for C9 (amended): merging `{"power": true}` into a state
holding a brightness leaves the brightness readable. -/
theorem control_entity_merges_ingest_replaces_witness :
    ((DeviceControl.control_entity
        ⟨1, "h1", "node1", "light", "lamp", [("brightness", .vNum 50)]⟩
        (.vDict [("power", .vBool true)])).1.state).lookup "brightness" =
      some (.vNum 50) :=
  (control_entity_merges_ingest_replaces.1
    ⟨1, "h1", "node1", "light", "lamp", [("brightness", .vNum 50)]⟩
    [("power", .vBool true)] "brightness" rfl).trans rfl

/-- C9 is false as stated for scene steps: the `core.tasks` variant of
`control_entity` that the scene runner calls raises `ImportError`
unconditionally — `core/mqtt/client.py` defines `client`, not the
imported name `mqtt_client` — so a scene step updates no state at all
(the `entity.state.update(command)` merge on its later lines is
unreachable). -/
theorem scene_step_control_entity_import_error :
    Tasks.control_entity
        ⟨1, "h1", "node1", "switch", "lamp", [("value", .vStr "OFF")]⟩
        (.vDict [("power", .vBool true)]) = .error .importError := rfl

/-- Witness for C2 (amended) at concrete inputs: a zero-trigger rule is
not selected, and a two-trigger rule passes the AND combination when
both triggers hold on the incoming value. -/
theorem trigger_combination_is_and_only_witness :
    selectedFor ⟨11, true, "OR", 60, []⟩ 1 "state" = false ∧
    check_all_triggers []
        ⟨12, true, "OR", 60,
          [⟨1, "state", "==", .vStr "ON"⟩, ⟨1, "state", "==", .vStr "ON"⟩]⟩
        1 "state" (.vStr "ON") = .ok true :=
  ⟨trigger_combination_is_and_only.1 11 true "OR" 60 1 "state",
    (trigger_combination_is_and_only.2 []
      ⟨12, true, "OR", 60,
        [⟨1, "state", "==", .vStr "ON"⟩, ⟨1, "state", "==", .vStr "ON"⟩]⟩
      1 "state" (.vStr "ON")).mpr (by decide)⟩

/-- Witness for C4 (amended) at concrete payloads. -/
theorem publish_command_flattening_witness :
    publish_command (.vDict [("value", .vNum 42)]) = .vNum 42 ∧
    publish_command (.vDict [("power", .vStr "OFF")]) = .vStr "OFF" ∧
    publish_command (.vStr "ON") = .vStr "ON" :=
  ⟨publish_command_flattening.1 (.vNum 42),
    publish_command_flattening.2.1 (.vStr "OFF"),
    publish_command_flattening.2.2.2.1 "ON"⟩

/-- Witness for C6 (amended) at concrete topics: six segments decode,
five do not; four segments pass the status check. -/
theorem parse_topic_success_iff_witness :
    (parse_topic "home/h1/node1/switch/lamp/state").isSome = true ∧
    (parse_topic "home/h1/node1/switch/state").isSome = false ∧
    (parseStatusTopic "home/h1/node1/status").isSome = true :=
  ⟨(parse_topic_success_iff.1 "home/h1/node1/switch/lamp/state").mpr (by decide),
    by
      have h := (parse_topic_success_iff.1 "home/h1/node1/switch/state").not.mpr
        (by decide)
      simpa using h,
    (parse_topic_success_iff.2 "home/h1/node1/status").mpr (by decide)⟩

end SmartHome
